import Mathlib

/-!
Verification of the `aces` OpenEXR-compatible file-header reader
(`src/apps/acesinfo/main.c`, which bundles the library source, and
`src/libs/aces/aces.h`).

The embedding is byte-level: the input stream is a `List Nat` of bytes
(each byte `< 256` in well-formed inputs), the injected `readfn` is
modelled by `readN` (take up to `n` bytes, report how many were
actually delivered, exactly like `read(2)` at end of file), and every
parsing routine of the C source is translated to a Lean function that
returns an `Except` value together with the remaining stream, so that
byte consumption is observable even on error paths.

Machine integers: 32-bit quantities are decoded little-endian into
`Nat` and reinterpreted as `int32_t` via `toInt32`; the C cast of an
`int32_t` to `size_t` is `toSizeT` (two's complement modulo 2^64).
C `int` division (truncation toward zero) is `Int.tdiv`.
`malloc` is assumed to succeed; allocation-failure branches of the C
code (which only produce an error return) are not modelled.
-/

namespace Aces

/-- Byte streams: a list of byte values. -/
abbrev Bytes := List Nat

/-- Encode a Lean string literal as its ASCII byte list (used for the
attribute-name and type-name constants of the C source). -/
def str2bytes (s : String) : Bytes :=
  s.data.map Char.toNat

/-- Model of the injected `readfn`: reading `n` bytes from the stream
delivers as many of the first `n` bytes as exist (short delivery at end
of stream, like POSIX `read`), together with the remaining stream. -/
def readN (n : Nat) (s : Bytes) : Bytes × Bytes :=
  (s.take n, s.drop n)

/-- Decode a little-endian 32-bit word from the first four bytes of a
buffer (missing bytes read as the zero bytes of a zero-initialised
struct). -/
def le32 : Bytes → Nat
  | b0 :: b1 :: b2 :: b3 :: _ => b0 + b1 * 256 + b2 * 65536 + b3 * 16777216
  | [b0, b1, b2] => b0 + b1 * 256 + b2 * 65536
  | [b0, b1] => b0 + b1 * 256
  | [b0] => b0
  | [] => 0

/-- Encode a value below 2^32 as four little-endian bytes (the inverse
of `le32`, used to state theorems about concrete file prefixes). -/
def enc32 (n : Nat) : Bytes :=
  [n % 256, n / 256 % 256, n / 65536 % 256, n / 16777216 % 256]

/-- Reinterpret a 32-bit unsigned value as a C `int32_t` (two's
complement). -/
def toInt32 (v : Nat) : Int :=
  if v < 2 ^ 31 then (v : Int) else (v : Int) - 2 ^ 32

/-- C cast of an `int32_t` value to `size_t` (64-bit, two's
complement). -/
def toSizeT (i : Int) : Nat :=
  (i % (2 : Int) ^ 64).toNat

/-! ### Compression, line order and storage constants (`aces.h`) -/

def ACES_COMPRESSION_NONE : Nat := 0
def ACES_COMPRESSION_RLE : Nat := 1
def ACES_COMPRESSION_ZIPS : Nat := 2
def ACES_COMPRESSION_ZIP : Nat := 3
def ACES_COMPRESSION_PIZ : Nat := 4
def ACES_COMPRESSION_PXR24 : Nat := 5
def ACES_COMPRESSION_B44 : Nat := 6
def ACES_COMPRESSION_B44A : Nat := 7

/-- Storage mode, from the version word of the file header. -/
inductive ACES_STORAGE_TYPE where
  | SCANLINE
  | TILED
deriving DecidableEq, Repr

/-- Integer box attribute (`aces_attr_box2i`): four `int32_t` fields. -/
structure aces_attr_box2i where
  x_min : Int
  y_min : Int
  x_max : Int
  y_max : Int
deriving DecidableEq, Repr

/-- Decode an `aces_attr_box2i` from its 16-byte packed little-endian
layout (missing bytes are the zero bytes of the zeroed attribute
union). -/
def box2iOfBytes (bs : Bytes) : aces_attr_box2i :=
  { x_min := toInt32 (le32 bs)
    y_min := toInt32 (le32 (bs.drop 4))
    x_max := toInt32 (le32 (bs.drop 8))
    y_max := toInt32 (le32 (bs.drop 12)) }

/-! ### Scanline block geometry (`compute_scanline_block_info`)

The C function receives the parsed header (compression byte and data
window) and produces `lines_per` and `n_blocks` through out-parameters;
here it is a function from those header fields to the pair.  `int`
overflow (undefined behaviour in C) is not modelled: arithmetic is exact
on `Int`. -/

/-- Lines-per-block table of `compute_scanline_block_info`: the value
stored through `*lines_per` by the `switch` on the compression byte. -/
def scanline_lines_per (compression : Nat) : Int :=
  if compression = ACES_COMPRESSION_NONE ∨ compression = ACES_COMPRESSION_RLE ∨
      compression = ACES_COMPRESSION_ZIPS then 1
  else if compression = ACES_COMPRESSION_ZIP ∨ compression = ACES_COMPRESSION_PXR24 then 16
  else if compression = ACES_COMPRESSION_PIZ ∨ compression = ACES_COMPRESSION_B44 ∨
      compression = ACES_COMPRESSION_B44A then 32
  else -1

/-- Model of `compute_scanline_block_info`: returns
`(lines_per, n_blocks)` computed from the compression byte and the data
window.  `n_lines` is `y_max - y_min` (no `+1`), and the block count is
the C integer division `(n_lines + lines_per - 1) / lines_per`
(truncation toward zero, `Int.tdiv`). -/
def compute_scanline_block_info (compression : Nat) (data_window : aces_attr_box2i) :
    Int × Int :=
  let lines_per := scanline_lines_per compression
  let n_lines : Int := data_window.y_max - data_window.y_min
  let n_blocks : Int :=
    if lines_per > 0 then Int.tdiv (n_lines + lines_per - 1) lines_per else 0
  (lines_per, n_blocks)

/-! ### Error taxonomy

The C code reports every failure through `print_error` and a negative
return value.  Each distinct error site of the parsing code is given a
constructor, named after the condition its message describes. -/

/-- Parse errors of the header reader, one constructor per distinct
error condition of the C source. -/
inductive ParseErr where
  /-- a `readfn` call delivered fewer bytes than requested (EOF). -/
  | truncated
  /-- a name ran for 32 bytes without a NUL terminator. -/
  | nameTooLong
  /-- declared attribute size differs from the type's native size. -/
  | sizeMismatch
  /-- type name resolved to `ACES_ATTR_UNKNOWN` (or an unhandled tag). -/
  | unknownAttributeType
  /-- preview attribute declared size failed the up-front size check. -/
  | previewTooSmall
  /-- first header word is not the magic constant `20000630`. -/
  | badMagic
  /-- second header word is neither `0x2` nor `0x202`. -/
  | unsupportedVersion
  /-- required attributes absent at validation; carries the names from
  the itemized `Missing required attribute` messages. -/
  | missingRequiredAttribute (names : List Bytes)
deriving DecidableEq, Repr

/-! ### Reading NUL-terminated names (`read_string`)

`read_string` fills a 32-byte buffer one byte at a time.  Outcomes:
a complete name of at most 31 bytes with its terminator consumed
(return value `pos ≥ 0`), end of stream before the terminator
(return `-1`), or 32 bytes without a terminator (return `-1` after
forcing `attrname[31] = 0`, so the buffer holds the first 31 bytes).
The last two cases are distinguished because the channel-list loop of
`attr_read_chlist` treats the `-1` return as truthy and keeps going
with the buffer contents. -/

/-- Result of `read_string`. -/
inductive RStr where
  /-- name complete, NUL consumed; `name.length ≤ 31`. -/
  | ok (name : Bytes) (rest : Bytes)
  /-- stream ended before the terminator; `sofar` is the buffer
  contents written so far (the stream is exhausted). -/
  | eof (sofar : Bytes)
  /-- 32 bytes without terminator: buffer holds the first 31 bytes. -/
  | tooLong (name : Bytes) (rest : Bytes)
deriving DecidableEq, Repr

/-- Loop body of `read_string`: `acc` is the buffer contents so far
(`acc.length = pos`); the `pos < 32` loop condition is checked before
each byte is read. -/
def read_string_go : Bytes → Nat → Bytes → RStr
  | acc, pos, [] =>
    if pos < 32 then .eof acc else .tooLong (acc.take 31) []
  | acc, pos, b :: rest =>
    if pos < 32 then
      if b = 0 then .ok acc rest
      else read_string_go (acc ++ [b]) (pos + 1) rest
    else .tooLong (acc.take 31) (b :: rest)

/-- Model of `read_string`. -/
def read_string (s : Bytes) : RStr :=
  read_string_go [] 0 s

/-! ### Type-name resolution (`attr_name_to_type`) -/

/-- The C attribute-type enumeration (`ACES_ATTRIBUTE_TYPE`). -/
inductive ACES_ATTRIBUTE_TYPE where
  | UNKNOWN
  | BOX2I
  | BOX2F
  | CHLIST
  | CHROMATICITIES
  | COMPRESSION
  | DOUBLE
  | ENVMAP
  | FLOAT
  | INT
  | KEYCODE
  | LINEORDER
  | M33F
  | M44F
  | PREVIEW
  | RATIONAL
  | STRING
  | STRING_VECTOR
  | TILEDESC
  | TIMECODE
  | V2I
  | V2F
  | V3I
  | V3F
  | USER
deriving DecidableEq, Repr

/-- The C cast `(ACES_ATTRIBUTE_TYPE)(n)` for the enum values that
occur (`idx + 1` with `idx` a valid table index). -/
def attr_type_of_nat (n : Nat) : ACES_ATTRIBUTE_TYPE :=
  match n with
  | 1 => .BOX2I
  | 2 => .BOX2F
  | 3 => .CHLIST
  | 4 => .CHROMATICITIES
  | 5 => .COMPRESSION
  | 6 => .DOUBLE
  | 7 => .ENVMAP
  | 8 => .FLOAT
  | 9 => .INT
  | 10 => .KEYCODE
  | 11 => .LINEORDER
  | 12 => .M33F
  | 13 => .M44F
  | 14 => .PREVIEW
  | 15 => .RATIONAL
  | 16 => .STRING
  | 17 => .STRING_VECTOR
  | 18 => .TILEDESC
  | 19 => .TIMECODE
  | 20 => .V2I
  | 21 => .V2F
  | 22 => .V3I
  | 23 => .V3F
  | _ => .UNKNOWN

/-- The `the_predefined_attr_typenames` table (byte-list form). -/
def the_predefined_attr_typenames : List Bytes :=
  [str2bytes ("box2i"), str2bytes ("box2f"), str2bytes ("chlist"),
   str2bytes ("chromaticities"), str2bytes ("compression"), str2bytes ("double"),
   str2bytes ("envmap"), str2bytes ("float"), str2bytes ("int"),
   str2bytes ("keycode"), str2bytes ("lineOrder"), str2bytes ("m33f"),
   str2bytes ("m44f"), str2bytes ("preview"), str2bytes ("rational"),
   str2bytes ("string"), str2bytes ("stringvector"), str2bytes ("tiledesc"),
   str2bytes ("timecode"), str2bytes ("v2i"), str2bytes ("v2f"),
   str2bytes ("v3i"), str2bytes ("v3f")]

/-- Model of `attr_name_to_type`: NULL/empty resolves to `UNKNOWN`, a
table hit at index `idx` resolves to enum value `idx + 1`, any other
(non-empty) name resolves to `USER`. -/
def attr_name_to_type (attrname : Bytes) : ACES_ATTRIBUTE_TYPE :=
  if attrname = [] then .UNKNOWN
  else
    match the_predefined_attr_typenames.findIdx? (fun t => t = attrname) with
    | some idx => attr_type_of_nat (idx + 1)
    | none => .USER

/-! ### Fixed-size attribute reads (`attr_check_size_and_read`)

Every parsing function below returns `Except ParseErr α × Bytes`; the
second component is the remaining stream after the call, so that the
bytes consumed before a failure are part of the model. -/

/-- Model of `attr_check_size_and_read`: `given` is the declared
attribute size from the file (an `int32_t`, compared against the native
size after the C cast to `size_t`); on mismatch, fail without touching
the stream; otherwise read exactly `nativesize` bytes, failing if the
stream delivers fewer. -/
def attr_check_size_and_read (given : Int) (nativesize : Nat) (s : Bytes) :
    Except ParseErr Bytes × Bytes :=
  if toSizeT given ≠ nativesize then (.error .sizeMismatch, s)
  else
    let (data, rest) := readN nativesize s
    if data.length ≠ nativesize then (.error .truncated, rest)
    else (.ok data, rest)

/-! ### Variable-length attribute readers -/

/-- Parsed string attribute (`aces_attr_string`): the declared length
field and the bytes read. -/
structure aces_attr_string where
  length : Int
  str : Bytes
deriving DecidableEq, Repr

/-- Model of `attr_read_string`: the `#if 0` length-prefix branch is
compiled out, so `ssize = size`; the reader stores `ssize` as the
length, allocates `ssize` bytes and reads exactly that many, failing
(and discarding the buffer) on a short read. -/
def attr_read_string (size : Int) (s : Bytes) :
    Except ParseErr aces_attr_string × Bytes :=
  let ssize := size
  let (data, rest) := readN (toSizeT ssize) s
  if data.length ≠ toSizeT ssize then (.error .truncated, rest)
  else (.ok { length := ssize, str := data }, rest)

/-- Parsed user-data attribute (`aces_attr_userdata`). -/
structure aces_attr_userdata where
  size : Int
  data : Bytes
deriving DecidableEq, Repr

/-- Model of `attr_read_userdata`: reads exactly the declared size. -/
def attr_read_userdata (size : Int) (s : Bytes) :
    Except ParseErr aces_attr_userdata × Bytes :=
  let (data, rest) := readN (toSizeT size) s
  if data.length ≠ toSizeT size then (.error .truncated, rest)
  else (.ok { size := size, data := data }, rest)

/-- Parsed preview attribute (`aces_attr_preview`). -/
structure aces_attr_preview where
  width : Nat
  height : Nat
  rgba : Bytes
deriving DecidableEq, Repr

/-- Model of `attr_read_preview`: the up-front check rejects only
`size <= 4` (the C condition as written; its error message speaks of 8
bytes), then reads the two 32-bit dimensions and
`4 * width * height` bytes of RGBA data (a `size_t` product, reduced
modulo 2^64). -/
def attr_read_preview (size : Int) (s : Bytes) :
    Except ParseErr aces_attr_preview × Bytes :=
  if size ≤ 4 then (.error .previewTooSmall, s)
  else
    let (dims, rest) := readN 8 s
    if dims.length ≠ 8 then (.error .truncated, rest)
    else
      let w := le32 dims
      let h := le32 (dims.drop 4)
      let nToR := 4 * w * h % 2 ^ 64
      let (rgba, rest2) := readN nToR rest
      if rgba.length ≠ nToR then (.error .truncated, rest2)
      else (.ok { width := w, height := h, rgba := rgba }, rest2)

/-! ### Channel lists (`attr_read_chlist`)

Channel names are compared with `strcmp`; on NUL-terminated buffers
holding the byte lists below (no interior NUL) that is lexicographic
order on the byte lists with the shorter list first. -/

/-- The `strcmp(a, b) < 0` test on NUL-terminated buffers holding byte
lists `a` and `b`. -/
def strcmpLt : Bytes → Bytes → Bool
  | [], [] => false
  | [], _ :: _ => true
  | _ :: _, [] => false
  | a :: as, b :: bs =>
    if a < b then true
    else if b < a then false
    else strcmpLt as bs

/-- A channel-list entry (`aces_attr_chlist_entry`); the four fixed
fields are kept as the raw bytes copied into the packed struct. -/
structure aces_attr_chlist_entry where
  name : Bytes
  pixel_type : Bytes
  p_linear : Bytes
  reserved : Bytes
  x_sampling : Bytes
  y_sampling : Bytes
deriving DecidableEq, Repr

/-- The sorted insertion of `attr_read_chlist`: the new entry is placed
immediately before the first current entry whose name compares
strictly greater (`strcmp(new, cur) < 0`), i.e. after every entry
less than or equal to it. -/
def chlist_insert (e : aces_attr_chlist_entry) :
    List aces_attr_chlist_entry → List aces_attr_chlist_entry
  | [] => [e]
  | c :: cs =>
    if strcmpLt e.name c.name then e :: c :: cs
    else c :: chlist_insert e cs

/-- The five `attr_check_size_and_read` calls of the channel-list loop
body (pixel type, linear flag, 3 reserved bytes, x sampling, y
sampling); the `given` arguments are the same `sizeof` expressions the
C passes, so the size check never fires and only a short read fails. -/
def read_chlist_entry_fields (nm : Bytes) (s : Bytes) :
    Except ParseErr aces_attr_chlist_entry × Bytes :=
  match attr_check_size_and_read 4 4 s with
  | (.error e, r) => (.error e, r)
  | (.ok pt, r1) =>
    match attr_check_size_and_read 1 1 r1 with
    | (.error e, r) => (.error e, r)
    | (.ok lin, r2) =>
      match attr_check_size_and_read 3 3 r2 with
      | (.error e, r) => (.error e, r)
      | (.ok resv, r3) =>
        match attr_check_size_and_read 4 4 r3 with
        | (.error e, r) => (.error e, r)
        | (.ok xs, r4) =>
          match attr_check_size_and_read 4 4 r4 with
          | (.error e, r) => (.error e, r)
          | (.ok ys, r5) =>
            (.ok { name := nm, pixel_type := pt, p_linear := lin,
                   reserved := resv, x_sampling := xs, y_sampling := ys }, r5)

/-- The `while ( read_string( ... ) )` loop of `attr_read_chlist`.
`acc` is the sorted temporary list.  A zero-length name (return `0`,
falsy) ends the loop successfully; a complete name starts an entry; a
truncated name (`read_string` returns `-1`, which the loop condition
treats as true) runs the body once more: at end of stream the first
field read fails, while after an over-long name the body parses the
fields after the 32 consumed bytes and, if they read cleanly, inserts
the truncated 31-byte name and keeps looping — no failure is recorded
for the name itself. -/
def attr_read_chlist_go (fuel : Nat) (s : Bytes)
    (acc : List aces_attr_chlist_entry) :
    Except ParseErr (List aces_attr_chlist_entry) × Bytes :=
  match fuel with
  | 0 => (.error .truncated, s)
  | fuel + 1 =>
    match read_string s with
    | .ok [] rest => (.ok acc, rest)
    | .ok nm rest =>
      match read_chlist_entry_fields nm rest with
      | (.error e, r) => (.error e, r)
      | (.ok entry, r) => attr_read_chlist_go fuel r (chlist_insert entry acc)
    | .eof sofar =>
      match read_chlist_entry_fields sofar [] with
      | (.error e, r) => (.error e, r)
      | (.ok entry, r) => attr_read_chlist_go fuel r (chlist_insert entry acc)
    | .tooLong nm rest =>
      match read_chlist_entry_fields nm rest with
      | (.error e, r) => (.error e, r)
      | (.ok entry, r) => attr_read_chlist_go fuel r (chlist_insert entry acc)

/-- Model of `attr_read_chlist`.  The declared attribute `size` is
ignored by the C function (the payload is delimited by the empty-name
sentinel alone).  On success the entries of the temporary sorted list
are flattened, in list order, into the result array.  The fuel
`s.length + 1` is an upper bound on the iteration count: every
iteration but the last consumes at least one byte. -/
def attr_read_chlist (_size : Int) (s : Bytes) :
    Except ParseErr (List aces_attr_chlist_entry) × Bytes :=
  attr_read_chlist_go (s.length + 1) s []

/-! ### Attribute records (`read_attribute`) -/

/-- The payload of a parsed attribute: the active member of the C
union.  Fixed-size payloads keep the raw bytes copied into the zeroed
union. -/
inductive AttrValue where
  | data (bytes : Bytes)
  | str (sa : aces_attr_string)
  | preview (p : aces_attr_preview)
  | chlist (entries : List aces_attr_chlist_entry)
  | user (ud : aces_attr_userdata)
deriving DecidableEq, Repr

/-- A parsed attribute (`aces_attribute`); `type_name` models the
`strdup`-ed name kept for `USER` attributes (empty otherwise, the
NULL of the zeroed struct). -/
structure aces_attribute where
  type : ACES_ATTRIBUTE_TYPE
  type_name : Bytes
  value : AttrValue
deriving DecidableEq, Repr

/-- Result of `read_attribute`: `ok` is the C return value `1`,
`sentinel` the return value `0` (empty attribute name, end of the
attribute list), `err` the return value `-1`. -/
inductive AttrRead where
  | ok (attrname : Bytes) (attr : aces_attribute) (rest : Bytes)
  | sentinel (rest : Bytes)
  | err (e : ParseErr) (rest : Bytes)
deriving DecidableEq, Repr

/-- Native sizes (in bytes) of the packed structures of `aces.h`
(`#pragma pack(1)`; the two enum fields of `aces_attr_tiledesc` are
C `int`s of 4 bytes each). -/
def sizeof_box2i : Nat := 16
def sizeof_box2f : Nat := 16
def sizeof_chromaticities : Nat := 32
def sizeof_keycode : Nat := 28
def sizeof_m33f : Nat := 36
def sizeof_m44f : Nat := 64
def sizeof_rational : Nat := 8
def sizeof_tiledesc : Nat := 16
def sizeof_timecode : Nat := 8
def sizeof_v2i : Nat := 8
def sizeof_v2f : Nat := 8
def sizeof_v3i : Nat := 12
def sizeof_v3f : Nat := 12

/-- Dispatch of the `switch ( attr->type )` statement of
`read_attribute` for the fixed-size cases. -/
def fixed_attr_size : ACES_ATTRIBUTE_TYPE → Option Nat
  | .BOX2I => some sizeof_box2i
  | .BOX2F => some sizeof_box2f
  | .CHROMATICITIES => some sizeof_chromaticities
  | .COMPRESSION => some 1
  | .DOUBLE => some 8
  | .ENVMAP => some 1
  | .FLOAT => some 4
  | .INT => some 4
  | .KEYCODE => some sizeof_keycode
  | .LINEORDER => some 1
  | .M33F => some sizeof_m33f
  | .M44F => some sizeof_m44f
  | .RATIONAL => some sizeof_rational
  | .TILEDESC => some sizeof_tiledesc
  | .TIMECODE => some sizeof_timecode
  | .V2I => some sizeof_v2i
  | .V2F => some sizeof_v2f
  | .V3I => some sizeof_v3i
  | .V3F => some sizeof_v3f
  | _ => none

/-- Model of `read_attribute`: attribute name (empty name is the
list-terminating sentinel, any `read_string` failure is an error),
type name (only a `read_string` failure is an error — an empty type
name passes, since the C only rejects a negative return), 4-byte
declared size, then dispatch on the resolved type.  `STRING_VECTOR`
and `UNKNOWN` both fall into the `default`/`UNKNOWN` arm of the C
switch (there is no `ACES_ATTR_STRING_VECTOR` case) and fail as an
unknown type. -/
def read_attribute (s : Bytes) : AttrRead :=
  match read_string s with
  | .eof _ => .err .truncated []
  | .tooLong _ rest => .err .nameTooLong rest
  | .ok [] rest => .sentinel rest
  | .ok attrname rest =>
    match read_string rest with
    | .eof _ => .err .truncated []
    | .tooLong _ rest2 => .err .nameTooLong rest2
    | .ok type_name rest2 =>
      let (szBytes, rest3) := readN 4 rest2
      if szBytes.length ≠ 4 then .err .truncated rest3
      else
        let asize := toInt32 (le32 szBytes)
        let ty := attr_name_to_type type_name
        match fixed_attr_size ty with
        | some nat_sz =>
          match attr_check_size_and_read asize nat_sz rest3 with
          | (.error e, r) => .err e r
          | (.ok bytes, r) =>
            .ok attrname { type := ty, type_name := [], value := .data bytes } r
        | none =>
          match ty with
          | .STRING =>
            match attr_read_string asize rest3 with
            | (.error e, r) => .err e r
            | (.ok sa, r) =>
              .ok attrname { type := ty, type_name := [], value := .str sa } r
          | .PREVIEW =>
            match attr_read_preview asize rest3 with
            | (.error e, r) => .err e r
            | (.ok p, r) =>
              .ok attrname { type := ty, type_name := [], value := .preview p } r
          | .CHLIST =>
            match attr_read_chlist asize rest3 with
            | (.error e, r) => .err e r
            | (.ok entries, r) =>
              .ok attrname { type := ty, type_name := [], value := .chlist entries } r
          | .USER =>
            match attr_read_userdata asize rest3 with
            | (.error e, r) => .err e r
            | (.ok ud, r) =>
              .ok attrname { type := ty, type_name := type_name, value := .user ud } r
          | _ => .err .unknownAttributeType rest3

/-! ### Header accumulation (`add_attribute`, required-attribute mask)

The required-field assignments in `add_attribute` copy union members by
name without checking the attribute's parsed type.  For fixed-size
payloads the union bytes are the payload bytes (the rest of the zeroed
union reads as zero); the reinterpretation of the pointer-carrying
variants (string / preview / chlist / user) as scalar or struct
members depends on heap addresses and is represented by the zero bytes
of this model's `unionFixedBytes`. -/

/-- The leading union bytes of an attribute value, as seen by a
fixed-size member access. -/
def unionFixedBytes : AttrValue → Bytes
  | .data bytes => bytes
  | _ => []

/-- The union read `attr->uc` (first byte of the union). -/
def attr_uc (v : AttrValue) : Nat :=
  (unionFixedBytes v).getD 0 0

/-- The union read `attr->box2i`. -/
def attr_box2i (v : AttrValue) : aces_attr_box2i :=
  box2iOfBytes (unionFixedBytes v)

/-- The union read `attr->f` (the 32-bit pattern of the float). -/
def attr_f (v : AttrValue) : Nat :=
  le32 (unionFixedBytes v)

/-- The union read `attr->v2f` (the 8 bytes of the two floats). -/
def attr_v2f (v : AttrValue) : Bytes :=
  (unionFixedBytes v).take 8

/-- The union read `attr->tiledesc` (16 packed bytes). -/
def attr_tiledesc (v : AttrValue) : Bytes :=
  (unionFixedBytes v).take 16

/-- The union read `attr->chlist`. -/
def attr_chlist (v : AttrValue) : List aces_attr_chlist_entry :=
  match v with
  | .chlist entries => entries
  | _ => []

/-- The parsed header (`ACES_PRIVATE_FILE`): the required attributes,
the storage mode from the version word, and the user-attribute list in
file order.  Float-valued fields hold the 32-bit patterns. -/
structure ACES_PRIVATE_FILE where
  storage_mode : ACES_STORAGE_TYPE
  channels : List aces_attr_chlist_entry
  compression : Nat
  data_window : aces_attr_box2i
  display_window : aces_attr_box2i
  line_order : Nat
  pixel_aspect_ratio : Nat
  screen_window_center : Bytes
  screen_window_width : Nat
  tile_info : Bytes
  user_attributes : List (Bytes × aces_attribute)
deriving DecidableEq, Repr

/-- The zero-initialised header of `alloc_file_data_struct` with a
given storage mode (set from the version word before the attribute
loop runs). -/
def initial_file (storage : ACES_STORAGE_TYPE) : ACES_PRIVATE_FILE :=
  { storage_mode := storage
    channels := []
    compression := 0
    data_window := { x_min := 0, y_min := 0, x_max := 0, y_max := 0 }
    display_window := { x_min := 0, y_min := 0, x_max := 0, y_max := 0 }
    line_order := 0
    pixel_aspect_ratio := 0
    screen_window_center := []
    screen_window_width := 0
    tile_info := []
    user_attributes := [] }

/-- Required-attribute bit masks (`REQ_*_MASK`). -/
def REQ_CHANNELS_MASK : Nat := 0x0001
def REQ_COMP_MASK : Nat := 0x0002
def REQ_DATA_MASK : Nat := 0x0004
def REQ_DISP_MASK : Nat := 0x0008
def REQ_LO_MASK : Nat := 0x0010
def REQ_PAR_MASK : Nat := 0x0020
def REQ_SCR_WC_MASK : Nat := 0x0040
def REQ_SCR_WW_MASK : Nat := 0x0080
def REQ_TILES_MASK : Nat := 0x0100

/-- Required-attribute names (`REQ_*_STR`). -/
def REQ_CHANNELS_STR : Bytes := str2bytes ("channels")
def REQ_COMP_STR : Bytes := str2bytes ("compression")
def REQ_DATA_STR : Bytes := str2bytes ("dataWindow")
def REQ_DISP_STR : Bytes := str2bytes ("displayWindow")
def REQ_LO_STR : Bytes := str2bytes ("lineOrder")
def REQ_PAR_STR : Bytes := str2bytes ("pixelAspectRatio")
def REQ_SCR_WC_STR : Bytes := str2bytes ("screenWindowCenter")
def REQ_SCR_WW_STR : Bytes := str2bytes ("screenWindowWidth")
def REQ_TILES_STR : Bytes := str2bytes ("tiles")

/-- Model of `add_attribute`: a required name stores the value into
the header and returns the corresponding mask bit; `tiles` does so
only when the storage mode is tiled, otherwise it falls through (like
every unrecognised name) to the end of the user-attribute list with no
mask bit. -/
def add_attribute (f : ACES_PRIVATE_FILE) (attrname : Bytes)
    (attr : aces_attribute) : ACES_PRIVATE_FILE × Nat :=
  if attrname = REQ_CHANNELS_STR then
    ({ f with channels := attr_chlist attr.value }, REQ_CHANNELS_MASK)
  else if attrname = REQ_COMP_STR then
    ({ f with compression := attr_uc attr.value }, REQ_COMP_MASK)
  else if attrname = REQ_DATA_STR then
    ({ f with data_window := attr_box2i attr.value }, REQ_DATA_MASK)
  else if attrname = REQ_DISP_STR then
    ({ f with display_window := attr_box2i attr.value }, REQ_DISP_MASK)
  else if attrname = REQ_LO_STR then
    ({ f with line_order := attr_uc attr.value }, REQ_LO_MASK)
  else if attrname = REQ_PAR_STR then
    ({ f with pixel_aspect_ratio := attr_f attr.value }, REQ_PAR_MASK)
  else if attrname = REQ_SCR_WC_STR then
    ({ f with screen_window_center := attr_v2f attr.value }, REQ_SCR_WC_MASK)
  else if attrname = REQ_SCR_WW_STR then
    ({ f with screen_window_width := attr_f attr.value }, REQ_SCR_WW_MASK)
  else if attrname = REQ_TILES_STR ∧ f.storage_mode = .TILED then
    ({ f with tile_info := attr_tiledesc attr.value }, REQ_TILES_MASK)
  else
    ({ f with user_attributes := f.user_attributes ++ [(attrname, attr)] }, 0)

/-- Model of `check_attr_mask`: the missing-attribute message (if any)
for one mask bit; the C returns the count (here the list length) and
emits one `Missing required attribute` message per gap. -/
def check_attr_mask (v mask : Nat) (name : Bytes) : List Bytes :=
  if v &&& mask = 0 then [name] else []

/-- Model of `report_missing_attributes`: the itemized missing-field
names in check order (`numMissing` is the length); the tiles bit is
checked only for tiled storage. -/
def report_missing_attributes (f : ACES_PRIVATE_FILE) (accumAttrsRead : Nat) :
    List Bytes :=
  check_attr_mask accumAttrsRead REQ_CHANNELS_MASK REQ_CHANNELS_STR ++
  check_attr_mask accumAttrsRead REQ_COMP_MASK REQ_COMP_STR ++
  check_attr_mask accumAttrsRead REQ_DATA_MASK REQ_DATA_STR ++
  check_attr_mask accumAttrsRead REQ_DISP_MASK REQ_DISP_STR ++
  check_attr_mask accumAttrsRead REQ_LO_MASK REQ_LO_STR ++
  check_attr_mask accumAttrsRead REQ_PAR_MASK REQ_PAR_STR ++
  check_attr_mask accumAttrsRead REQ_SCR_WC_MASK REQ_SCR_WC_STR ++
  check_attr_mask accumAttrsRead REQ_SCR_WW_MASK REQ_SCR_WW_STR ++
  (if f.storage_mode = .TILED then
    check_attr_mask accumAttrsRead REQ_TILES_MASK REQ_TILES_STR
  else [])

/-! ### The header parse loop and `read_header` -/

/-- The `do { rda = read_attribute(...); ... } while ( rda == 1 )`
loop of `read_header`: accumulates the mask of required attributes
seen; the sentinel return `0` ends the loop successfully, an error
return aborts.  Fuel bounds the iteration count (each successful
attribute consumes at least its name byte and terminator). -/
def read_attr_loop (fuel : Nat) (f : ACES_PRIVATE_FILE) (reqMask : Nat)
    (s : Bytes) : Except ParseErr (ACES_PRIVATE_FILE × Nat × Bytes) :=
  match fuel with
  | 0 => .error .truncated
  | fuel + 1 =>
    match read_attribute s with
    | .sentinel rest => .ok (f, reqMask, rest)
    | .err e _ => .error e
    | .ok attrname attr rest =>
      let (f2, bit) := add_attribute f attrname attr
      read_attr_loop fuel f2 (reqMask ||| bit) rest

/-- The part of `read_header` after the version word: run the
attribute loop from the zeroed header with the storage mode already
set, then validate the required-attribute mask, failing with the
itemized missing names if any check fires. -/
def read_header_body (storage : ACES_STORAGE_TYPE) (s : Bytes) :
    Except ParseErr ACES_PRIVATE_FILE :=
  match read_attr_loop (s.length + 1) (initial_file storage) 0 s with
  | .error e => .error e
  | .ok (f, reqMask, _) =>
    let missing := report_missing_attributes f reqMask
    if missing.length ≠ 0 then .error (.missingRequiredAttribute missing)
    else .ok f

/-- Model of `read_header`: read 8 bytes as two little-endian 32-bit
words (`int32_t`); the first must be the magic constant `20000630`,
the second must be `0x2` (scanline) or `0x202` (tiled), and only then
does the attribute loop run. -/
def read_header (s : Bytes) : Except ParseErr ACES_PRIVATE_FILE :=
  let (magic_version, rest) := readN 8 s
  if magic_version.length ≠ 8 then .error .truncated
  else
    let w0 := toInt32 (le32 magic_version)
    let w1 := toInt32 (le32 (magic_version.drop 4))
    if w0 ≠ 20000630 then .error .badMagic
    else if w1 ≠ 0x2 ∧ w1 ≠ 0x202 then .error .unsupportedVersion
    else
      read_header_body (if w1 = 0x202 then .TILED else .SCANLINE) rest

/-- Model of the open operations (`aces_start_read` /
`aces_start_read_stream`) at the level of the byte stream: when
`read_header` fails the handle is closed and the caller receives NULL
(`none`); otherwise the parsed header is the usable handle. -/
def aces_start_read_stream (s : Bytes) : Option ACES_PRIVATE_FILE :=
  match read_header s with
  | .ok f => some f
  | .error _ => none

/-! ### Closing a handle (`aces_close`)

`aces_close` is about heap discipline, so it is embedded over an
explicit allocator state: the set of currently allocated block
addresses.  `free` on an allocated address removes it; `free` on an
address not currently allocated is the double-free fault the C
standard leaves undefined.  A handle is either the null pointer
(`none`) or the addresses of the blocks the file owns: the
`__ACES_INTERNAL_FILE_DATA` struct itself and the heap payloads
reachable from it (channel-entry array and user-attribute nodes with
their variable-length buffers), which `aces_close` frees in order
before freeing the struct. -/

/-- Allocator state: the set of live block addresses. -/
abbrev Heap := Finset Nat

/-- One `free` call: removes a live block; freeing a dead address is a
fault (undefined behaviour in C). -/
def freeBlock (h : Heap) (p : Nat) : Heap × Bool :=
  if p ∈ h then (h.erase p, false) else (h, true)

/-- The blocks owned by a non-null `ACES_FILE` handle: the file struct
address and the payload blocks freed by the attribute-release walk. -/
structure FileBlocks where
  self : Nat
  payloads : List Nat
deriving DecidableEq, Repr

/-- The payload-release walk of `aces_close` (channel entries, then
each user-attribute node with its buffers): frees each block in order,
flagging any double free. -/
def release_payloads : Heap → List Nat → Heap × Bool
  | h, [] => (h, false)
  | h, p :: ps =>
    let r := freeBlock h p
    let rest := release_payloads r.1 ps
    (rest.1, r.2 || rest.2)

/-- Model of `aces_close`: a null handle returns immediately;
otherwise the payload blocks are freed in order and finally the file
struct itself (`free_file_data_struct`).  The Bool records whether any
`free` hit a dead address (double free). -/
def aces_close (h : Heap) (f : Option FileBlocks) : Heap × Bool :=
  match f with
  | none => (h, false)
  | some fb =>
    let step := release_payloads h fb.payloads
    let fin := freeBlock step.1 fb.self
    (fin.1, step.2 || fin.2)

/-! ### Concrete streams for witnesses -/

/-- The fixed 16 bytes following a channel name in a channel-list
payload: pixel type `1` (half), linear flag `0`, reserved, x/y
sampling `1`. -/
def chlist_fields_demo : Bytes :=
  [1, 0, 0, 0, 0, 0, 0, 0, 1, 0, 0, 0, 1, 0, 0, 0]

/-- A channel-list payload listing channels `G`, `R`, `B`, `A` in that
file order, ending with the empty-name sentinel. -/
def chlist_payload_demo : Bytes :=
  (str2bytes ("G") ++ [0] ++ chlist_fields_demo) ++
  (str2bytes ("R") ++ [0] ++ chlist_fields_demo) ++
  (str2bytes ("B") ++ [0] ++ chlist_fields_demo) ++
  (str2bytes ("A") ++ [0] ++ chlist_fields_demo) ++ [0]

/-- Serialisation of one attribute record: name, NUL, type name, NUL,
4-byte declared size, payload. -/
def attr_bytes (name ty : Bytes) (sz : Nat) (payload : Bytes) : Bytes :=
  name ++ [0] ++ ty ++ [0] ++ enc32 sz ++ payload

/-- The channel-list entry that `chlist_fields_demo` decodes to, for a
given name. -/
def demo_entry (n : Bytes) : aces_attr_chlist_entry :=
  { name := n, pixel_type := [1, 0, 0, 0], p_linear := [0], reserved := [0, 0, 0],
    x_sampling := [1, 0, 0, 0], y_sampling := [1, 0, 0, 0] }

/-- The comparison underlying the channel-list order: `a` precedes or
equals `b` when `strcmp(b, a)` is not negative. -/
def chle (a b : aces_attr_chlist_entry) : Prop :=
  strcmpLt b.name a.name = false

/-! ## Theorems -/

/-- C1: for recognized compression modes, `compute_scanline_block_info`
derives lines-per-block 1 for none/rle/zips, 16 for zip and 32 for piz;
whenever the derived lines-per-block is positive and the data window is
proper, the block count is the ceiling of `(y_max - y_min) /
lines_per` — i.e. the least count whose blocks cover `y_max - y_min`
lines, without the `+1` of the inclusive-bounds convention — and in
particular compression zip with `y_max - y_min = 100` yields 7
blocks. -/
theorem C1_scanline_block_geometry :
    (∀ dw : aces_attr_box2i,
      (compute_scanline_block_info ACES_COMPRESSION_NONE dw).1 = 1 ∧
      (compute_scanline_block_info ACES_COMPRESSION_RLE dw).1 = 1 ∧
      (compute_scanline_block_info ACES_COMPRESSION_ZIPS dw).1 = 1 ∧
      (compute_scanline_block_info ACES_COMPRESSION_ZIP dw).1 = 16 ∧
      (compute_scanline_block_info ACES_COMPRESSION_PIZ dw).1 = 32) ∧
    (∀ (compression : Nat) (dw : aces_attr_box2i),
      0 < (compute_scanline_block_info compression dw).1 →
      dw.y_min ≤ dw.y_max →
      dw.y_max - dw.y_min ≤
        (compute_scanline_block_info compression dw).2 *
          (compute_scanline_block_info compression dw).1 ∧
      (compute_scanline_block_info compression dw).2 *
          (compute_scanline_block_info compression dw).1 <
        dw.y_max - dw.y_min + (compute_scanline_block_info compression dw).1) ∧
    (compute_scanline_block_info ACES_COMPRESSION_ZIP
      { x_min := 0, y_min := 0, x_max := 0, y_max := 100 }).2 = 7 := by
  refine ⟨?_, ?_, by decide⟩
  · intro dw
    refine ⟨rfl, rfl, rfl, rfl, rfl⟩
  · intro compression dw hpos hy
    simp only [compute_scanline_block_info] at hpos ⊢
    set lp := scanline_lines_per compression with hlp
    have hlpcases : lp = 1 ∨ lp = 16 ∨ lp = 32 ∨ lp = -1 := by
      rw [hlp]
      unfold scanline_lines_per
      split_ifs <;> simp
    have hlppos : (0 : Int) < lp := hpos
    set n : Int := dw.y_max - dw.y_min with hn
    have hn0 : 0 ≤ n := by omega
    have harg : 0 ≤ n + lp - 1 := by omega
    rcases hlpcases with h1 | h1 | h1 | h1 <;>
      rw [h1] at hlppos harg ⊢ <;>
      first
        | (exfalso; omega)
        | (rw [if_pos hlppos, Int.tdiv_eq_ediv harg (le_of_lt hlppos)]
           constructor <;> omega)

/-- C1 witness: the geometry theorem applied to compression zip and the
data window `[0,0 - 0,100]`. -/
theorem C1_scanline_block_geometry_witness :
    (0 : Int) <
      (compute_scanline_block_info ACES_COMPRESSION_ZIP
        { x_min := 0, y_min := 0, x_max := 0, y_max := 100 }).1 ∧
    ((0 : Int) ≤ 100) ∧
    ((100 : Int) ≤
      (compute_scanline_block_info ACES_COMPRESSION_ZIP
        { x_min := 0, y_min := 0, x_max := 0, y_max := 100 }).2 * 16 ∧
    (compute_scanline_block_info ACES_COMPRESSION_ZIP
        { x_min := 0, y_min := 0, x_max := 0, y_max := 100 }).2 * 16 <
      100 + 16) := by
  refine ⟨by decide, by decide, ?_⟩
  have h := C1_scanline_block_geometry.2.1 ACES_COMPRESSION_ZIP
    { x_min := 0, y_min := 0, x_max := 0, y_max := 100 } (by decide) (by decide)
  simpa using h

/-- Helper: `read_header` on a stream opening with two encoded 32-bit
words reduces to the magic check, the version check, and the attribute
phase. -/
theorem read_header_split (w v : Nat) (rest : Bytes) (hw : w < 2 ^ 32) (hv : v < 2 ^ 32) :
    read_header (enc32 w ++ enc32 v ++ rest) =
      if toInt32 w ≠ 20000630 then .error .badMagic
      else if toInt32 v ≠ 0x2 ∧ toInt32 v ≠ 0x202 then .error .unsupportedVersion
      else read_header_body (if toInt32 v = 0x202 then .TILED else .SCANLINE) rest := by
  have hlen : (enc32 w ++ enc32 v).length = 8 := rfl
  have h1 : readN 8 ((enc32 w ++ enc32 v) ++ rest) = (enc32 w ++ enc32 v, rest) := by
    rw [readN, List.take_left' hlen, List.drop_left' hlen]
  have h2 : le32 (enc32 w ++ enc32 v) = w := by
    simp only [enc32, List.cons_append, List.nil_append, le32]
    omega
  have h3 : (enc32 w ++ enc32 v).drop 4 = enc32 v := List.drop_left' rfl
  have h4 : le32 (enc32 v) = v := by
    simp only [enc32, le32]
    omega
  rw [read_header, h1]
  simp only [hlen, h2, h3, h4]
  norm_num

/-- C6: a file whose first little-endian 32-bit word is not the magic
constant 20000630 fails with the bad-magic error whatever the rest of
the stream holds (so before any attribute is read), and the open
operation yields no handle. -/
theorem C6_bad_magic (w v : Nat) (rest : Bytes) (hw : w < 2 ^ 32) (hv : v < 2 ^ 32)
    (hne : w ≠ 20000630) :
    read_header (enc32 w ++ enc32 v ++ rest) = .error .badMagic ∧
    aces_start_read_stream (enc32 w ++ enc32 v ++ rest) = none := by
  have hm : toInt32 w ≠ 20000630 := by
    unfold toInt32
    split <;> omega
  have h := read_header_split w v rest hw hv
  rw [if_pos hm] at h
  refine ⟨h, ?_⟩
  unfold aces_start_read_stream
  rw [h]

/-- C6 witness: first word 123, second word 2, empty remainder. -/
theorem C6_bad_magic_witness :
    read_header (enc32 123 ++ enc32 2 ++ []) = .error .badMagic ∧
    aces_start_read_stream (enc32 123 ++ enc32 2 ++ []) = none :=
  C6_bad_magic 123 2 [] (by norm_num) (by norm_num) (by norm_num)

/-- C7: a second header word of exactly 0x2 sends the parse into the
attribute phase with scanline storage, exactly 0x202 with tiled
storage, and any other value (for example 0x3) fails with the
unsupported-version error. -/
theorem C7_version_dispatch :
    (∀ rest : Bytes,
      read_header (enc32 20000630 ++ enc32 0x2 ++ rest) =
        read_header_body .SCANLINE rest) ∧
    (∀ rest : Bytes,
      read_header (enc32 20000630 ++ enc32 0x202 ++ rest) =
        read_header_body .TILED rest) ∧
    (∀ (v : Nat) (rest : Bytes), v < 2 ^ 32 → v ≠ 0x2 → v ≠ 0x202 →
      read_header (enc32 20000630 ++ enc32 v ++ rest) = .error .unsupportedVersion) ∧
    (∀ rest : Bytes,
      read_header (enc32 20000630 ++ enc32 0x3 ++ rest) = .error .unsupportedVersion) := by
  have hv3 : ∀ (v : Nat) (rest : Bytes), v < 2 ^ 32 → v ≠ 0x2 → v ≠ 0x202 →
      read_header (enc32 20000630 ++ enc32 v ++ rest) = .error .unsupportedVersion := by
    intro v rest hv h2 h202
    have h := read_header_split 20000630 v rest (by norm_num) hv
    rw [if_neg (by decide)] at h
    have hvv : toInt32 v ≠ 0x2 ∧ toInt32 v ≠ 0x202 := by
      unfold toInt32
      constructor <;> split <;> omega
    rw [if_pos hvv] at h
    exact h
  refine ⟨?_, ?_, hv3, fun rest => hv3 3 rest (by norm_num) (by norm_num) (by norm_num)⟩
  · intro rest
    have h := read_header_split 20000630 2 rest (by norm_num) (by norm_num)
    rw [if_neg (by decide)] at h
    rw [if_neg (by decide)] at h
    rw [if_neg (by decide)] at h
    exact h
  · intro rest
    have h := read_header_split 20000630 0x202 rest (by norm_num) (by norm_num)
    rw [if_neg (by decide)] at h
    rw [if_neg (by decide)] at h
    rw [if_pos (by decide)] at h
    exact h

/-- C7 witness: the dispatch theorem applied to the empty remainder
and, for the failure branch, version word 3. -/
theorem C7_version_dispatch_witness :
    read_header (enc32 20000630 ++ enc32 0x2 ++ []) = read_header_body .SCANLINE [] ∧
    read_header (enc32 20000630 ++ enc32 0x202 ++ []) = read_header_body .TILED [] ∧
    read_header (enc32 20000630 ++ enc32 3 ++ []) = .error .unsupportedVersion :=
  ⟨C7_version_dispatch.1 [], C7_version_dispatch.2.1 [],
    C7_version_dispatch.2.2.1 3 [] (by norm_num) (by norm_num) (by norm_num)⟩

/-- Helper: reading a NUL-free name followed by its terminator from
the buffer state `acc` returns the accumulated name with the
terminator consumed. -/
theorem read_string_go_complete (name : Bytes) (acc : Bytes) (rest : Bytes)
    (h : acc.length + name.length ≤ 31) (hz : ∀ b ∈ name, b ≠ 0) :
    read_string_go acc acc.length (name ++ 0 :: rest) = .ok (acc ++ name) rest := by
  induction name generalizing acc with
  | nil =>
    have hlt : acc.length < 32 := by omega
    simp [read_string_go, hlt]
  | cons b bs ih =>
    have hb : b ≠ 0 := hz b (List.mem_cons_self b bs)
    have hlt : acc.length < 32 := by
      simp only [List.length_cons] at h
      omega
    rw [List.cons_append, read_string_go, if_pos hlt, if_neg hb]
    have h2 : (acc ++ [b]).length + bs.length ≤ 31 := by
      simp only [List.length_append, List.length_cons, List.length_nil] at h ⊢
      omega
    have := ih (acc ++ [b]) h2 (fun x hx => hz x (List.mem_cons_of_mem _ hx))
    simpa [List.length_append] using this

/-- Helper: `read_string` on a complete NUL-terminated name of at most
31 NUL-free bytes returns exactly that name. -/
theorem read_string_complete (name : Bytes) (rest : Bytes)
    (hlen : name.length ≤ 31) (hz : ∀ b ∈ name, b ≠ 0) :
    read_string (name ++ 0 :: rest) = .ok name rest := by
  have := read_string_go_complete name [] rest (by simpa) hz
  simpa [read_string] using this

/-- Helper: an error return from `read_attribute` aborts the attribute
loop with that error. -/
theorem read_attr_loop_err (fuel : Nat) (f : ACES_PRIVATE_FILE) (m : Nat)
    (s : Bytes) (e : ParseErr) (r : Bytes) (h : read_attribute s = .err e r) :
    read_attr_loop (fuel + 1) f m s = .error e := by
  simp [read_attr_loop, h]

/-- Helper: an error return from `read_attribute` on the first
attribute aborts the whole header parse with that error. -/
theorem read_header_body_err (storage : ACES_STORAGE_TYPE) (s : Bytes)
    (e : ParseErr) (r : Bytes) (h : read_attribute s = .err e r) :
    read_header_body storage s = .error e := by
  have hl := read_attr_loop_err s.length (initial_file storage) 0 s e r h
  unfold read_header_body
  rw [hl]

/-- C5: a fixed-size attribute whose declared size differs from the
native size fails with the size-mismatch error with the stream
untouched (no payload byte is consumed), and an attribute-read error
aborts the whole header parse. -/
theorem C5_size_mismatch_aborts :
    (∀ (given : Int) (nativesize : Nat) (s : Bytes), toSizeT given ≠ nativesize →
      attr_check_size_and_read given nativesize s = (.error .sizeMismatch, s)) ∧
    (∀ (storage : ACES_STORAGE_TYPE) (s : Bytes) (e : ParseErr) (r : Bytes),
      read_attribute s = .err e r → read_header_body storage s = .error e) := by
  constructor
  · intro given native s hne
    simp [attr_check_size_and_read, hne]
  · intro storage s e r h
    exact read_header_body_err storage s e r h

/-- C5 witness: a `box2i` attribute with declared size 15 (native size
16): the size check fails leaving the 3-byte payload unconsumed, and a
header whose first attribute is such a record fails to parse. -/
theorem C5_size_mismatch_aborts_witness :
    attr_check_size_and_read 15 sizeof_box2i [9, 9, 9] =
      (.error .sizeMismatch, [9, 9, 9]) ∧
    read_header_body .SCANLINE
      (attr_bytes (str2bytes ("a")) (str2bytes ("box2i")) 15 [7, 7, 7]) =
      .error .sizeMismatch :=
  ⟨C5_size_mismatch_aborts.1 15 sizeof_box2i [9, 9, 9] (by decide),
   C5_size_mismatch_aborts.2 .SCANLINE
     (attr_bytes (str2bytes ("a")) (str2bytes ("box2i")) 15 [7, 7, 7])
     .sizeMismatch [7, 7, 7] (by decide)⟩

/-- C4: a string attribute's declared size is the string length (no
length prefix): when the stream holds at least that many bytes the
reader returns exactly the first `size` bytes verbatim with the
declared size as the length, and when it holds fewer the read fails. -/
theorem C4_string_attribute (size : Int) (s : Bytes) (hpos : 0 ≤ size) :
    (toSizeT size ≤ s.length →
      attr_read_string size s =
        (.ok { length := size, str := s.take (toSizeT size) }, s.drop (toSizeT size))) ∧
    (s.length < toSizeT size →
      (attr_read_string size s).1 = .error .truncated) := by
  constructor
  · intro hle
    have hlen : (s.take (toSizeT size)).length = toSizeT size := by
      simp [List.length_take]
      omega
    simp [attr_read_string, readN, hlen]
  · intro hlt
    have hne : (s.take (toSizeT size)).length ≠ toSizeT size := by
      rw [List.length_take]
      omega
    simp [attr_read_string, readN, hne, hlt]

/-- C4 witness: declared size 5 with payload `hello` parses to the
5-byte string `hello`; the same size over a 3-byte stream fails. -/
theorem C4_string_attribute_witness :
    attr_read_string 5 (str2bytes ("hello")) =
      (.ok { length := 5, str := str2bytes ("hello") }, []) ∧
    (attr_read_string 5 [104, 105, 33]).1 = .error .truncated := by
  constructor
  · have h := (C4_string_attribute 5 (str2bytes ("hello")) (by decide)).1 (by decide)
    simpa using h
  · exact (C4_string_attribute 5 [104, 105, 33] (by decide)).2 (by decide)

/-- C8: the preview reader's up-front check as written rejects only
declared sizes of at most 4: with declared size 5 it goes on to read
the width/height pair from the stream (here width 1, height 0) instead
of rejecting, while size 4 is rejected with the stream untouched. -/
theorem C8_preview_size5_reads_dims :
    attr_read_preview 5 [1, 0, 0, 0, 0, 0, 0, 0] =
      (.ok { width := 1, height := 0, rgba := [] }, []) ∧
    (∀ s : Bytes, attr_read_preview 4 s = (.error .previewTooSmall, s)) := by
  constructor
  · rfl
  · intro s
    simp [attr_read_preview]

/-- C10: an attribute record with a non-empty name but an empty type
name resolves the type to the unknown tag (not the user fallback) and
fails the attribute read with the unknown-type error after consuming
the 4 size bytes; the whole header parse aborts on it. -/
theorem C10_empty_type_name_fails (attrname : Bytes) (size4 rest : Bytes)
    (hne : attrname ≠ []) (hlen : attrname.length ≤ 31)
    (hz : ∀ b ∈ attrname, b ≠ 0) (hsz : size4.length = 4) :
    attr_name_to_type [] = .UNKNOWN ∧
    read_attribute (attrname ++ [0] ++ [0] ++ size4 ++ rest) =
      .err .unknownAttributeType rest ∧
    (∀ storage : ACES_STORAGE_TYPE,
      read_header_body storage (attrname ++ [0] ++ [0] ++ size4 ++ rest) =
        .error .unknownAttributeType) := by
  have hra : read_attribute (attrname ++ [0] ++ [0] ++ size4 ++ rest) =
      .err .unknownAttributeType rest := by
    have hs : attrname ++ [0] ++ [0] ++ size4 ++ rest =
        attrname ++ 0 :: (0 :: (size4 ++ rest)) := by
      simp
    have h0 : read_string (0 :: (size4 ++ rest)) = .ok [] (size4 ++ rest) := by
      simp [read_string, read_string_go]
    have h1 : readN 4 (size4 ++ rest) = (size4, rest) := by
      rw [readN, List.take_left' hsz, List.drop_left' hsz]
    cases attrname with
    | nil => exact absurd rfl hne
    | cons a as =>
      rw [hs]
      have hrs := read_string_complete (a :: as) (0 :: (size4 ++ rest)) hlen hz
      simp only [read_attribute, hrs, h0, h1, hsz]
      simp [attr_name_to_type, fixed_attr_size]
  refine ⟨rfl, hra, fun storage => read_header_body_err storage _ _ rest hra⟩

/-- C10 witness: attribute name `x`, empty type name, size word 0. -/
theorem C10_empty_type_name_fails_witness :
    attr_name_to_type [] = .UNKNOWN ∧
    read_attribute ([120] ++ [0] ++ [0] ++ [0, 0, 0, 0] ++ []) =
      .err .unknownAttributeType [] ∧
    read_header_body .SCANLINE ([120] ++ [0] ++ [0] ++ [0, 0, 0, 0] ++ []) =
      .error .unknownAttributeType := by
  have h := C10_empty_type_name_fails [120] [0, 0, 0, 0] []
    (by decide) (by decide) (by decide) (by decide)
  exact ⟨h.1, h.2.1, h.2.2 .SCANLINE⟩

/-- Helper: one mask check produces no message exactly when the bit is
present. -/
theorem check_attr_mask_eq_nil (v m : Nat) (n : Bytes) :
    check_attr_mask v m n = [] ↔ v &&& m ≠ 0 := by
  unfold check_attr_mask
  split_ifs with h <;> simp [h]

/-- Helper: membership in one mask check's output. -/
theorem mem_check_attr_mask (x : Bytes) (v m : Nat) (n : Bytes) :
    x ∈ check_attr_mask v m n ↔ (x = n ∧ v &&& m = 0) := by
  unfold check_attr_mask
  split_ifs with h <;> simp [h]

/-- C2: validation passes exactly when the required-attribute mask
covers channels, compression, dataWindow, displayWindow, lineOrder,
pixelAspectRatio, screenWindowCenter and screenWindowWidth, plus the
tiles bit iff the storage mode is tiled; the itemized messages name
exactly the missing fields; and after the attribute loop the whole
parse succeeds iff no field is missing, failing otherwise with the
missing-attribute error carrying those names. -/
theorem C2_required_attribute_validation :
    (∀ (f : ACES_PRIVATE_FILE) (v : Nat),
      report_missing_attributes f v = [] ↔
        (v &&& REQ_CHANNELS_MASK ≠ 0 ∧ v &&& REQ_COMP_MASK ≠ 0 ∧
         v &&& REQ_DATA_MASK ≠ 0 ∧ v &&& REQ_DISP_MASK ≠ 0 ∧
         v &&& REQ_LO_MASK ≠ 0 ∧ v &&& REQ_PAR_MASK ≠ 0 ∧
         v &&& REQ_SCR_WC_MASK ≠ 0 ∧ v &&& REQ_SCR_WW_MASK ≠ 0 ∧
         (f.storage_mode = .TILED → v &&& REQ_TILES_MASK ≠ 0))) ∧
    (∀ (f : ACES_PRIVATE_FILE) (v : Nat) (name : Bytes),
      name ∈ report_missing_attributes f v ↔
        ((name = REQ_CHANNELS_STR ∧ v &&& REQ_CHANNELS_MASK = 0) ∨
         (name = REQ_COMP_STR ∧ v &&& REQ_COMP_MASK = 0) ∨
         (name = REQ_DATA_STR ∧ v &&& REQ_DATA_MASK = 0) ∨
         (name = REQ_DISP_STR ∧ v &&& REQ_DISP_MASK = 0) ∨
         (name = REQ_LO_STR ∧ v &&& REQ_LO_MASK = 0) ∨
         (name = REQ_PAR_STR ∧ v &&& REQ_PAR_MASK = 0) ∨
         (name = REQ_SCR_WC_STR ∧ v &&& REQ_SCR_WC_MASK = 0) ∨
         (name = REQ_SCR_WW_STR ∧ v &&& REQ_SCR_WW_MASK = 0) ∨
         (name = REQ_TILES_STR ∧ f.storage_mode = .TILED ∧
          v &&& REQ_TILES_MASK = 0))) ∧
    (∀ (storage : ACES_STORAGE_TYPE) (s : Bytes) (f : ACES_PRIVATE_FILE)
       (m : Nat) (rest : Bytes),
      read_attr_loop (s.length + 1) (initial_file storage) 0 s = .ok (f, m, rest) →
      read_header_body storage s =
        if report_missing_attributes f m = [] then .ok f
        else .error (.missingRequiredAttribute (report_missing_attributes f m))) := by
  refine ⟨?_, ?_, ?_⟩
  · intro f v
    rcases hsm : f.storage_mode with _ | _ <;>
      simp [report_missing_attributes, hsm, List.append_eq_nil,
        check_attr_mask_eq_nil] <;>
      tauto
  · intro f v name
    rcases hsm : f.storage_mode with _ | _ <;>
      simp [report_missing_attributes, hsm, List.mem_append,
        mem_check_attr_mask] <;>
      tauto
  · intro storage s f m rest h
    unfold read_header_body
    rw [h]
    rcases hm : report_missing_attributes f m with _ | ⟨a, l⟩
    · simp [hm]
    · simp [hm]

/-- C2 witness: the empty attribute list (a lone sentinel byte after
the version words): the loop yields mask 0, and the parse fails with
all eight scanline-required names reported missing. -/
theorem C2_required_attribute_validation_witness :
    read_header_body .SCANLINE [0] =
      if report_missing_attributes (initial_file .SCANLINE) 0 = [] then
        .ok (initial_file .SCANLINE)
      else .error (.missingRequiredAttribute
        (report_missing_attributes (initial_file .SCANLINE) 0)) :=
  C2_required_attribute_validation.2.2 .SCANLINE [0]
    (initial_file .SCANLINE) 0 [] (by rfl)

/-- Helper: the strict byte-list comparison is transitive. -/
theorem strcmpLt_trans (a b c : Bytes) (hab : strcmpLt a b = true)
    (hbc : strcmpLt b c = true) : strcmpLt a c = true := by
  induction a generalizing b c with
  | nil =>
    cases b with
    | nil => simp [strcmpLt] at hab
    | cons b0 bs =>
      cases c with
      | nil => simp [strcmpLt] at hbc
      | cons c0 cs => simp [strcmpLt]
  | cons a0 as ih =>
    cases b with
    | nil => simp [strcmpLt] at hab
    | cons b0 bs =>
      cases c with
      | nil => simp [strcmpLt] at hbc
      | cons c0 cs =>
        simp only [strcmpLt] at hab hbc ⊢
        split_ifs at hab hbc ⊢ <;>
          first
            | rfl
            | omega
            | (exact ih bs cs hab hbc)
            | simp_all

/-- Helper: the strict byte-list comparison is asymmetric. -/
theorem strcmpLt_asymm (a b : Bytes) (h : strcmpLt a b = true) :
    strcmpLt b a = false := by
  induction a generalizing b with
  | nil =>
    cases b with
    | nil => simp [strcmpLt] at h
    | cons b0 bs => simp [strcmpLt]
  | cons a0 as ih =>
    cases b with
    | nil => simp [strcmpLt] at h
    | cons b0 bs =>
      simp only [strcmpLt] at h ⊢
      split_ifs at h ⊢ <;>
        first
          | rfl
          | omega
          | (exact ih bs h)
          | simp_all

/-- Helper: membership in an insertion. -/
theorem mem_chlist_insert (x e : aces_attr_chlist_entry)
    (l : List aces_attr_chlist_entry) :
    x ∈ chlist_insert e l ↔ x = e ∨ x ∈ l := by
  induction l with
  | nil => simp [chlist_insert]
  | cons c cs ih =>
    unfold chlist_insert
    split_ifs with hlt
    · simp [List.mem_cons] <;> tauto
    · simp [List.mem_cons, ih] <;> tauto

/-- Helper: the sorted insertion of `attr_read_chlist` preserves the
ascending-name invariant. -/
theorem chlist_insert_pairwise (e : aces_attr_chlist_entry)
    (l : List aces_attr_chlist_entry) (h : l.Pairwise chle) :
    (chlist_insert e l).Pairwise chle := by
  induction l with
  | nil => simp [chlist_insert]
  | cons c cs ih =>
    rcases List.pairwise_cons.mp h with ⟨hc, hcs⟩
    unfold chlist_insert
    split_ifs with hlt
    · refine List.Pairwise.cons ?_ h
      intro x hx
      rcases List.mem_cons.mp hx with rfl | hx2
      · exact strcmpLt_asymm _ _ hlt
      · have hcx : strcmpLt x.name c.name = false := hc x hx2
        cases hxe : strcmpLt x.name e.name with
        | false => exact hxe
        | true => exact absurd (strcmpLt_trans _ _ _ hxe hlt) (by simp [hcx])
    · refine List.Pairwise.cons ?_ (ih hcs)
      intro x hx
      rcases (mem_chlist_insert x e cs).mp hx with rfl | hx2
      · simpa [chle] using hlt
      · exact hc x hx2

/-- Helper: the channel-list loop returns a pairwise-sorted entry list
whenever the accumulated list is. -/
theorem attr_read_chlist_go_sorted (fuel : Nat) :
    ∀ (s : Bytes) (acc entries : List aces_attr_chlist_entry) (rest : Bytes),
      acc.Pairwise chle →
      attr_read_chlist_go fuel s acc = (.ok entries, rest) →
      entries.Pairwise chle := by
  induction fuel with
  | zero =>
    intro s acc entries rest hacc h
    simp [attr_read_chlist_go] at h
  | succ n ih =>
    intro s acc entries rest hacc h
    rw [attr_read_chlist_go] at h
    split at h
    · simp only [Prod.mk.injEq, Except.ok.injEq] at h
      exact h.1 ▸ hacc
    · split at h
      · simp at h
      · exact ih _ _ _ _ (chlist_insert_pairwise _ _ hacc) h
    · split at h
      · simp at h
      · exact ih _ _ _ _ (chlist_insert_pairwise _ _ hacc) h
    · split at h
      · simp at h
      · exact ih _ _ _ _ (chlist_insert_pairwise _ _ hacc) h

/-- C3: every successfully parsed channel list is sorted by name in
ascending order (each name compares less-or-equal, by `strcmp`, to
every later one), whatever order the file presented the channels. -/
theorem C3_chlist_sorted (size : Int) (s : Bytes)
    (entries : List aces_attr_chlist_entry) (rest : Bytes)
    (h : attr_read_chlist size s = (.ok entries, rest)) :
    (entries.map (fun e => e.name)).Pairwise
      (fun a b : Bytes => strcmpLt b a = false) := by
  have hp := attr_read_chlist_go_sorted (s.length + 1) s [] entries rest
    (by simp) h
  exact (List.pairwise_map).mpr hp

/-- C3 witness: the payload listing channels G, R, B, A parses to the
entries in order A, B, G, R, and the sortedness theorem applies to
it. -/
theorem C3_chlist_sorted_witness :
    attr_read_chlist 0 chlist_payload_demo =
      (.ok [demo_entry (str2bytes ("A")), demo_entry (str2bytes ("B")),
            demo_entry (str2bytes ("G")), demo_entry (str2bytes ("R"))], []) ∧
    (([demo_entry (str2bytes ("A")), demo_entry (str2bytes ("B")),
       demo_entry (str2bytes ("G")), demo_entry (str2bytes ("R"))].map
        (fun e => e.name)).Pairwise
      (fun a b : Bytes => strcmpLt b a = false)) := by
  have hparse : attr_read_chlist 0 chlist_payload_demo =
      (.ok [demo_entry (str2bytes ("A")), demo_entry (str2bytes ("B")),
            demo_entry (str2bytes ("G")), demo_entry (str2bytes ("R"))], []) := by
    rfl
  exact ⟨hparse, C3_chlist_sorted 0 chlist_payload_demo _ [] hparse⟩

/-- Helper: freeing never adds a live block. -/
theorem freeBlock_fst_subset (h : Heap) (p : Nat) : (freeBlock h p).1 ⊆ h := by
  unfold freeBlock
  split_ifs with hp
  · exact Finset.erase_subset _ _
  · exact Finset.Subset.refl h

/-- Helper: the payload walk never adds a live block. -/
theorem release_payloads_fst_subset (ps : List Nat) (h : Heap) :
    (release_payloads h ps).1 ⊆ h := by
  induction ps generalizing h with
  | nil => exact Finset.Subset.refl h
  | cons p ps ih =>
    exact Finset.Subset.trans (ih (freeBlock h p).1) (freeBlock_fst_subset h p)

/-- Helper: after a close, the file-struct block is no longer live. -/
theorem aces_close_self_not_mem (h : Heap) (fb : FileBlocks) :
    fb.self ∉ (aces_close h (some fb)).1 := by
  show fb.self ∉ (freeBlock (release_payloads h fb.payloads).1 fb.self).1
  unfold freeBlock
  split_ifs with hp
  · exact Finset.not_mem_erase _ _
  · exact hp

/-- C9 counterexample: the claim that closing the same handle twice is
a safe no-op fails on the concrete single-block heap: the second
`aces_close` of the same non-null handle frees an already-freed block
(the double-free flag is raised). -/
theorem C9_double_close_counterexample :
    (aces_close
      (aces_close ({0} : Heap) (some { self := 0, payloads := [] })).1
      (some { self := 0, payloads := [] })).2 = true := by
  decide

/-- C9 (amended): closing a null handle is a safe no-op that leaves
the heap untouched, and a first close of a fully live handle is
fault-free; but a second `aces_close` of the same non-null handle
always performs a double free on the file-struct block. -/
theorem C9_close_null_noop_double_close_faults :
    (∀ h : Heap, aces_close h none = (h, false)) ∧
    (∀ (h : Heap) (fb : FileBlocks),
      (aces_close (aces_close h (some fb)).1 (some fb)).2 = true) := by
  constructor
  · intro h
    rfl
  · intro h fb
    have h1 : fb.self ∉ (aces_close h (some fb)).1 := aces_close_self_not_mem h fb
    have h2 : fb.self ∉
        (release_payloads (aces_close h (some fb)).1 fb.payloads).1 :=
      fun hm => h1 (release_payloads_fst_subset fb.payloads _ hm)
    show ((release_payloads (aces_close h (some fb)).1 fb.payloads).2 ||
      (freeBlock (release_payloads (aces_close h (some fb)).1 fb.payloads).1
        fb.self).2) = true
    rw [freeBlock, if_neg h2]
    exact Bool.or_true _

end Aces
